import Mathlib

/-!
Shallow embedding of `scripts/garmin_sync.py` (Garmin Connect sync job).

Numbers are modelled exactly: Python floats/ints on the values this script
handles are embedded as `ℚ`/`ℤ`; `int(x)` truncates toward zero, `x // y`
is floor division, `x % y` is the sign-of-divisor remainder, and
`round(x, 2)` rounds half to even.  JSON fields read with `dict.get` are
modelled as absent / null / value; fallible per-record mapping returns
`Except`.
-/

namespace GarminSync

/-- Python `int(x)` on a numeric value: truncation toward zero. -/
def pyInt (x : ℚ) : ℤ := if x < 0 then ⌈x⌉ else ⌊x⌋

/-- Python float floor division `x // y` (the value is an integer). -/
def pyFloorDiv (x y : ℚ) : ℤ := ⌊x / y⌋

/-- Python float remainder `x % y` for a positive divisor: `x - y * (x // y)`. -/
def pyMod (x y : ℚ) : ℚ := x - y * (⌊x / y⌋ : ℚ)

/-- Round half to even to the nearest integer, as Python `round` does. -/
def roundHalfEven (x : ℚ) : ℤ :=
  if x - (⌊x⌋ : ℚ) < 1/2 then ⌊x⌋
  else if 1/2 < x - (⌊x⌋ : ℚ) then ⌊x⌋ + 1
  else if ⌊x⌋ % 2 = 0 then ⌊x⌋ else ⌊x⌋ + 1

/-- Python `round(x, 2)`: round half to even at two decimal places. -/
def pyRound2 (x : ℚ) : ℚ := (roundHalfEven (x * 100) : ℚ) / 100

/-- Python format spec `{n:02d}`: decimal, zero-padded to width two. -/
def pad2 (n : ℤ) : String :=
  if 0 ≤ n ∧ n < 10 then "0" ++ toString n else toString n

/-- A numeric JSON field of a raw record: absent key, null value, or a number. -/
inductive RawNum where
  | absent : RawNum
  | null : RawNum
  | num : ℚ → RawNum
deriving DecidableEq

/-- Python `value or 0` after a `dict.get(key, 0)`: absent and null (and zero)
all collapse to `0`. -/
def orZero : RawNum → ℚ
  | RawNum.num q => q
  | _ => 0

/-- Reading a numeric field with `dict.get(key, 0)` and then using it in
arithmetic: absent gives the default `0`, null gives a `TypeError`. -/
def getNumDefault0 : RawNum → Except String ℚ
  | RawNum.absent => Except.ok 0
  | RawNum.null => Except.error "TypeError: unsupported operand type: NoneType"
  | RawNum.num q => Except.ok q

/-- The nested `activityType` object of a raw activity record. -/
structure ActivityTypeObj where
  typeKey : Option String
deriving DecidableEq

/-- A raw activity record as returned by the activity-list endpoint. -/
structure RawActivity where
  activityId : Option ℤ
  activityName : Option String
  activityType : Option ActivityTypeObj
  distance : RawNum
  duration : RawNum
  startTimeLocal : Option String
  startTimeGMT : Option String
  calories : RawNum
  elevationGain : RawNum
  averageHR : RawNum
  maxHR : RawNum
deriving DecidableEq

/-- The value of `act.get('activityType', \x7b\x7d).get('typeKey')`. -/
def getTypeKey (act : RawActivity) : Option String :=
  match act.activityType with
  | some t => t.typeKey
  | none => none

/-- The pace string computed in `sync_activities`:
`f"\x7bint(pace_sec // 60)\x7d:\x7bint(pace_sec % 60):02d\x7d/km"` when
`distance > 0`, and the literal `"0:00/km"` otherwise. -/
def paceString (distance : ℚ) (duration : ℤ) : String :=
  if 0 < distance then
    toString (pyFloorDiv ((duration : ℚ) / distance) 60) ++ ":" ++
      pad2 (pyInt (pyMod ((duration : ℚ) / distance) 60)) ++ "/km"
  else "0:00/km"

/-- A mapped activity, i.e. the parameter tuple bound into the activities
INSERT statement. -/
structure MappedActivity where
  id : ℤ
  name : String
  date : String
  distance : ℚ
  duration : ℤ
  pace : String
  calories : ℤ
  elevation : ℤ
  avg_hr : ℤ
  max_hr : ℤ
deriving DecidableEq

/-- The per-record field extraction of `sync_activities` (lines 53-73 of the
script), in source order: `act['activityId']` raises a `KeyError` when the
key is absent; `act.get('distance', 0) / 1000` and `int(act.get('duration', 0))`
raise a `TypeError` on a null value; the remaining numeric fields go through
`int(... or 0)`; the date is the part of `startTimeLocal` (falling back to
`startTimeGMT`, then `''`) before `'T'` when `'T'` occurs in it, else before
`' '`. -/
def mapActivity (act : RawActivity) : Except String MappedActivity :=
  match act.activityId with
  | none => Except.error "KeyError: activityId"
  | some activity_id =>
    match getNumDefault0 act.distance with
    | Except.error e => Except.error e
    | Except.ok rawDist =>
      match getNumDefault0 act.duration with
      | Except.error e => Except.error e
      | Except.ok rawDur =>
        let name := act.activityName.getD "Run"
        let distance := pyRound2 (rawDist / 1000)
        let duration := pyInt rawDur
        let pace := paceString distance duration
        let start_time := act.startTimeLocal.getD (act.startTimeGMT.getD "")
        let date :=
          if start_time.contains 'T' then (start_time.splitOn "T").headD ""
          else (start_time.splitOn " ").headD ""
        let calories := pyInt (orZero act.calories)
        let elevation := pyInt (orZero act.elevationGain)
        let avg_hr := pyInt (orZero act.averageHR)
        let max_hr := pyInt (orZero act.maxHR)
        Except.ok { id := activity_id, name := name, date := date,
                    distance := distance, duration := duration, pace := pace,
                    calories := calories, elevation := elevation,
                    avg_hr := avg_hr, max_hr := max_hr }

/-- A row of the `activities` table. -/
structure ActivityRow where
  id : ℤ
  source : String
  name : String
  activity_type : String
  date : String
  distance : ℚ
  duration : ℤ
  pace : String
  calories : ℤ
  elevation : ℤ
  avg_hr : ℤ
  max_hr : ℤ
  updated_at : Option ℕ
deriving DecidableEq

/-- The `ON CONFLICT (id) DO UPDATE SET` clause of the activities upsert:
`name`, `distance`, `duration`, `pace`, `calories`, `elevation`, `avg_hr`,
`max_hr` are overwritten from the excluded row and `updated_at` is set to
`NOW()`; `source`, `activity_type` and `date` are left as they are. -/
def applyConflictUpdate (r : MappedActivity) (now : ℕ) (row : ActivityRow) :
    ActivityRow :=
  if row.id == r.id then
    { row with name := r.name, distance := r.distance, duration := r.duration,
               pace := r.pace, calories := r.calories, elevation := r.elevation,
               avg_hr := r.avg_hr, max_hr := r.max_hr, updated_at := some now }
  else row

/-- The VALUES tuple of the activities INSERT: `source` is the literal
`'garmin'` and `activity_type` the literal `'run'`; `updated_at` is not in
the column list. -/
def insertRow (r : MappedActivity) : ActivityRow :=
  { id := r.id, source := "garmin", name := r.name, activity_type := "run",
    date := r.date, distance := r.distance, duration := r.duration,
    pace := r.pace, calories := r.calories, elevation := r.elevation,
    avg_hr := r.avg_hr, max_hr := r.max_hr, updated_at := none }

/-- The activities upsert (`INSERT ... ON CONFLICT (id) DO UPDATE`): when a
row with the same id exists it is updated in place, otherwise the new row is
appended. -/
def upsertActivity (t : List ActivityRow) (r : MappedActivity) (now : ℕ) :
    List ActivityRow :=
  if t.any (fun row => row.id == r.id) then t.map (applyConflictUpdate r now)
  else t ++ [insertRow r]

/-- The running state of one sync pass: the table being written, the synced
count, and the number of per-record diagnostics printed so far. -/
structure PassState (Row : Type) where
  table : List Row
  count : ℕ
  logs : ℕ
deriving DecidableEq

/-- The body of the activities loop (lines 50-86): a record is considered
only when its type key equals `'running'`; a mapped record is upserted and
counted; a record whose mapping raises is skipped with a diagnostic. -/
def processActivity (now : ℕ) (st : PassState ActivityRow) (act : RawActivity) :
    PassState ActivityRow :=
  if getTypeKey act == some "running" then
    match mapActivity act with
    | Except.ok row =>
        { st with table := upsertActivity st.table row now, count := st.count + 1 }
    | Except.error _ => { st with logs := st.logs + 1 }
  else st

/-- The `sync_activities` pass: one fetch of the activity list, then the
per-record loop; a `GarthHTTPError` from the fetch is caught at pass level,
leaving the table unchanged and the count `0`.  Returns the table and the
reported count. -/
def sync_activities (now : ℕ) (fetch : Except String (List RawActivity))
    (table : List ActivityRow) : List ActivityRow × ℕ :=
  match fetch with
  | Except.error _ => (table, 0)
  | Except.ok acts =>
      let st := acts.foldl (processActivity now) ⟨table, 0, 0⟩
      (st.table, st.count)

/-- A raw daily sleep record (the `daily_sleep_dto` of the sleep API):
attributes may be `None`; the DTO also carries a sleep-score structure. -/
structure RawSleep where
  calendarDate : Option String
  sleepTimeSeconds : Option ℤ
  deepSleepSeconds : Option ℤ
  lightSleepSeconds : Option ℤ
  remSleepSeconds : Option ℤ
  awakeSleepSeconds : Option ℤ
  sleepScore : Option ℤ
deriving DecidableEq

/-- A row of the `sleep` table. -/
structure SleepRow where
  date : String
  total_sleep : ℤ
  deep_sleep : ℤ
  light_sleep : ℤ
  rem_sleep : ℤ
  awake : ℤ
  score : ℤ
deriving DecidableEq

/-- The per-record field extraction of `sync_sleep` (lines 108-116):
`calendar_date.strftime` raises on a null date; each duration goes through
`value or 0`; `score` is the hard-coded constant `0` (line 116, "Sleep score
not always available") — the record's own score is never read. -/
def mapSleep (s : RawSleep) : Except String SleepRow :=
  match s.calendarDate with
  | none => Except.error "AttributeError: NoneType has no attribute strftime"
  | some date =>
      Except.ok { date := date,
                  total_sleep := s.sleepTimeSeconds.getD 0,
                  deep_sleep := s.deepSleepSeconds.getD 0,
                  light_sleep := s.lightSleepSeconds.getD 0,
                  rem_sleep := s.remSleepSeconds.getD 0,
                  awake := s.awakeSleepSeconds.getD 0,
                  score := 0 }

/-- The sleep upsert: on a date collision every non-key column is overwritten
from the excluded row. -/
def upsertSleep (t : List SleepRow) (r : SleepRow) : List SleepRow :=
  if t.any (fun row => row.date == r.date) then
    t.map (fun row =>
      if row.date == r.date then
        { row with total_sleep := r.total_sleep, deep_sleep := r.deep_sleep,
                   light_sleep := r.light_sleep, rem_sleep := r.rem_sleep,
                   awake := r.awake, score := r.score }
      else row)
  else t ++ [r]

/-- The body of the sleep loop: a mapped record is upserted and counted; a
record whose mapping raises is skipped with a diagnostic. -/
def processSleep (st : PassState SleepRow) (s : RawSleep) : PassState SleepRow :=
  match mapSleep s with
  | Except.ok row =>
      { st with table := upsertSleep st.table row, count := st.count + 1 }
  | Except.error _ => { st with logs := st.logs + 1 }

/-- Modelled from the spec: the API client's `listSleep`/`listStress`
operations (spec §4.2, realised by the external `garth` library, which is
not part of this repository).  The operation fetches one record per
requested day and either returns them all or fails as a whole with a
`RemoteAPIError` as soon as any day's fetch fails. -/
def fetchAll {α : Type} : List (Except String α) → Except String (List α)
  | [] => Except.ok []
  | Except.error e :: _ => Except.error e
  | Except.ok r :: rest =>
      match fetchAll rest with
      | Except.error e => Except.error e
      | Except.ok rs => Except.ok (r :: rs)

/-- The `sync_sleep` pass: one `SleepData.list` fetch covering all requested
days, then the per-record loop; any exception from the fetch is caught by
the pass-level handler (line 132), leaving the table unchanged and the
count `0`. -/
def sync_sleep (days : List (Except String RawSleep)) (table : List SleepRow) :
    List SleepRow × ℕ :=
  match fetchAll days with
  | Except.error _ => (table, 0)
  | Except.ok recs =>
      let st := recs.foldl processSleep ⟨table, 0, 0⟩
      (st.table, st.count)

/-- A raw daily stress record: attributes may be `None`. -/
structure RawStress where
  calendarDate : Option String
  avgStressLevel : Option ℤ
  maxStressLevel : Option ℤ
deriving DecidableEq

/-- A row of the `stress` table. -/
structure StressRow where
  date : String
  avg_stress : ℤ
  max_stress : ℤ
deriving DecidableEq

/-- The per-record field extraction of `sync_stress` (lines 151-153). -/
def mapStress (s : RawStress) : Except String StressRow :=
  match s.calendarDate with
  | none => Except.error "AttributeError: NoneType has no attribute strftime"
  | some date =>
      Except.ok { date := date,
                  avg_stress := s.avgStressLevel.getD 0,
                  max_stress := s.maxStressLevel.getD 0 }

/-- The stress upsert: on a date collision both non-key columns are
overwritten from the excluded row. -/
def upsertStress (t : List StressRow) (r : StressRow) : List StressRow :=
  if t.any (fun row => row.date == r.date) then
    t.map (fun row =>
      if row.date == r.date then
        { row with avg_stress := r.avg_stress, max_stress := r.max_stress }
      else row)
  else t ++ [r]

/-- The body of the stress loop. -/
def processStress (st : PassState StressRow) (s : RawStress) :
    PassState StressRow :=
  match mapStress s with
  | Except.ok row =>
      { st with table := upsertStress st.table row, count := st.count + 1 }
  | Except.error _ => { st with logs := st.logs + 1 }

/-- The `sync_stress` pass, with the same shape as `sync_sleep`. -/
def sync_stress (days : List (Except String RawStress))
    (table : List StressRow) : List StressRow × ℕ :=
  match fetchAll days with
  | Except.error _ => (table, 0)
  | Except.ok recs =>
      let st := recs.foldl processStress ⟨table, 0, 0⟩
      (st.table, st.count)

/-- The environment variables the script reads at import time. -/
structure Env where
  databaseUrl : Option String
  postgresUrl : Option String
  oauth1 : Option String
  oauth2 : Option String
deriving DecidableEq

/-- Python truthiness of an environment lookup: an absent variable (`None`)
and the empty string are falsy. -/
def truthyOpt : Option String → Bool
  | none => false
  | some s => !(s == "")

/-- Line 16: `os.environ.get('DATABASE_URL') or os.environ.get('POSTGRES_URL')`. -/
def DATABASE_URL (env : Env) : Option String :=
  if truthyOpt env.databaseUrl then env.databaseUrl else env.postgresUrl

/-- The `main` function (lines 173-210): the token pair and the database URL
are checked before anything else; everything after the checks (token setup,
database connection, the three passes) is one `try` block whose failure is
reported as exit code 1.  The result is the exit code together with a flag
recording whether the job body (network and database activity) was entered. -/
def main (env : Env) (job : Except String (ℕ × ℕ × ℕ)) : ℕ × Bool :=
  if !(truthyOpt env.oauth1) || !(truthyOpt env.oauth2) then (1, false)
  else if !(truthyOpt (DATABASE_URL env)) then (1, false)
  else
    match job with
    | Except.ok _ => (0, true)
    | Except.error _ => (1, true)

/-! ### Helper lemmas about the Python arithmetic primitives -/

lemma pyInt_of_nonneg {x : ℚ} (h : 0 ≤ x) : pyInt x = ⌊x⌋ := by
  unfold pyInt
  rw [if_neg (not_lt.mpr h)]

lemma floor_div_sixty (x : ℚ) : ⌊x / 60⌋ = ⌊x⌋ / 60 := by
  have h0 : (0:ℚ) < 60 := by norm_num
  have hq : (60:ℤ) * (⌊x⌋ / 60) + ⌊x⌋ % 60 = ⌊x⌋ := Int.ediv_add_emod _ _
  have hm0 : (0:ℤ) ≤ ⌊x⌋ % 60 := Int.emod_nonneg _ (by norm_num)
  have hm60 : ⌊x⌋ % 60 < 60 := Int.emod_lt_of_pos _ (by norm_num)
  have hfl : (⌊x⌋ : ℚ) ≤ x := Int.floor_le x
  have hfu : x < ⌊x⌋ + 1 := Int.lt_floor_add_one x
  have hq' : (60:ℚ) * ((⌊x⌋ / 60 : ℤ) : ℚ) + ((⌊x⌋ % 60 : ℤ) : ℚ) = (⌊x⌋ : ℚ) := by
    exact_mod_cast hq
  have hm0' : (0:ℚ) ≤ ((⌊x⌋ % 60 : ℤ) : ℚ) := by exact_mod_cast hm0
  have hm59 : ⌊x⌋ % 60 ≤ 59 := by omega
  have hm59' : ((⌊x⌋ % 60 : ℤ) : ℚ) ≤ 59 := by exact_mod_cast hm59
  rw [Int.floor_eq_iff]
  constructor
  · rw [le_div_iff₀ h0]
    linarith
  · rw [div_lt_iff₀ h0]
    linarith

lemma floor_pyMod (x : ℚ) : ⌊pyMod x 60⌋ = ⌊x⌋ % 60 := by
  unfold pyMod
  have h : x - 60 * (⌊x / 60⌋ : ℚ) = x - ((60 * ⌊x / 60⌋ : ℤ) : ℚ) := by
    push_cast; ring
  rw [h, Int.floor_sub_int, floor_div_sixty, Int.emod_def]

lemma pyMod_sixty_nonneg (x : ℚ) : 0 ≤ pyMod x 60 := by
  unfold pyMod
  have h : (⌊x / 60⌋ : ℚ) ≤ x / 60 := Int.floor_le _
  have h2 : (60:ℚ) * (x / 60) = x := by ring
  nlinarith

/-- Written from the spec's pace formula: the floor of `duration/distance`
in whole seconds, displayed as minutes, a colon, and the remaining seconds
zero-padded to two digits, suffixed `"/km"`. -/
def paceSpec (distance : ℚ) (duration : ℤ) : String :=
  toString (⌊(duration : ℚ) / distance⌋ / 60) ++ ":" ++
    pad2 (⌊(duration : ℚ) / distance⌋ % 60) ++ "/km"

/-- C2: for distance > 0 the pace string is floor(duration/distance) seconds
rendered as minutes and seconds mod 60 zero-padded, suffixed "/km"; for
distance = 0 it is the literal "0:00/km"; and distance 10, duration 3000
give "5:00/km". -/
theorem pace_string_spec :
    (∀ (distance : ℚ) (duration : ℤ), 0 < distance →
       paceString distance duration = paceSpec distance duration)
    ∧ (∀ duration : ℤ, paceString 0 duration = "0:00/km")
    ∧ paceString 10 3000 = "5:00/km" := by
  refine ⟨?_, ?_, ?_⟩
  · intro distance duration h
    unfold paceString paceSpec pyFloorDiv
    rw [if_pos h, pyInt_of_nonneg (pyMod_sixty_nonneg _), floor_pyMod,
      floor_div_sixty]
  · intro duration
    unfold paceString
    rw [if_neg (lt_irrefl 0)]
  · norm_num [paceString, pyFloorDiv, pyInt, pyMod, pad2]
    rfl

/-- Witness for C2 at distance 10 km, duration 3000 s. -/
theorem pace_string_spec_witness : paceString 10 3000 = paceSpec 10 3000 :=
  pace_string_spec.1 10 3000 (by norm_num)

/-- C4: a record whose type key is not exactly the case-sensitive string
"running" (including an absent key) is not persisted by the activities pass
and does not contribute to the synced count: the loop body leaves the pass
state unchanged, so a pass over a batch containing such a record equals the
pass over the batch without it. -/
theorem nonrunning_records_excluded :
    ∀ act : RawActivity, getTypeKey act ≠ some "running" →
      (∀ (now : ℕ) (st : PassState ActivityRow),
         processActivity now st act = st) ∧
      (∀ (now : ℕ) (xs ys : List RawActivity) (init : PassState ActivityRow),
         (xs ++ act :: ys).foldl (processActivity now) init =
           (xs ++ ys).foldl (processActivity now) init) := by
  intro act h
  have hb : (getTypeKey act == some "running") = false := by
    simp [h]
  have hid : ∀ (now : ℕ) (st : PassState ActivityRow),
      processActivity now st act = st := by
    intro now st
    unfold processActivity
    rw [hb]
    rfl
  refine ⟨hid, ?_⟩
  intro now xs ys init
  rw [List.foldl_append, List.foldl_cons, hid, ← List.foldl_append]

/-- A raw cycling activity, complete and well formed. -/
def cCycling : RawActivity :=
  { activityId := some 42, activityName := some "Evening Ride",
    activityType := some { typeKey := some "cycling" },
    distance := RawNum.num 20000, duration := RawNum.num 3600,
    startTimeLocal := some "2024-05-01T18:00:00",
    startTimeGMT := some "2024-05-01T16:00:00",
    calories := RawNum.num 500, elevationGain := RawNum.num 120,
    averageHR := RawNum.num 140, maxHR := RawNum.num 170 }

/-- Witness for C4: a cycling record leaves the pass state untouched. -/
theorem nonrunning_records_excluded_witness :
    processActivity 7 ⟨[], 0, 0⟩ cCycling = ⟨[], 0, 0⟩ :=
  (nonrunning_records_excluded cCycling (by decide)).1 7 ⟨[], 0, 0⟩

/-! ### Characterisation of the pass loops -/

/-- Whether a fallible computation succeeded. -/
def exceptOk {α : Type} : Except String α → Bool
  | Except.ok _ => true
  | Except.error _ => false

/-- An activity record that the pass processes successfully. -/
def actOk (a : RawActivity) : Bool :=
  (getTypeKey a == some "running") && exceptOk (mapActivity a)

/-- An activity record that passes the type filter but fails to map. -/
def actErr (a : RawActivity) : Bool :=
  (getTypeKey a == some "running") && !(exceptOk (mapActivity a))

lemma foldl_processActivity_spec (now : ℕ) :
    ∀ (acts : List RawActivity) (t : List ActivityRow) (c l : ℕ),
      acts.foldl (processActivity now) ⟨t, c, l⟩ =
        ⟨(acts.foldl (processActivity now) ⟨t, 0, 0⟩).table,
          c + acts.countP actOk, l + acts.countP actErr⟩ := by
  intro acts
  induction acts with
  | nil => intro t c l; simp
  | cons a as ih =>
    intro t c l
    rw [List.foldl_cons, List.foldl_cons]
    by_cases hk : (getTypeKey a == some "running") = true
    · cases hm : mapActivity a with
      | ok row =>
        have hstep : ∀ c' l' : ℕ, processActivity now ⟨t, c', l'⟩ a =
            ⟨upsertActivity t row now, c' + 1, l'⟩ := by
          intro c' l'
          simp [processActivity, hk, hm]
        rw [hstep c l, hstep 0 0, ih _ (c + 1) l, ih _ (0 + 1) 0]
        simp [List.countP_cons, actOk, actErr, hk, hm, exceptOk]
        omega
      | error e =>
        have hstep : ∀ c' l' : ℕ, processActivity now ⟨t, c', l'⟩ a =
            ⟨t, c', l' + 1⟩ := by
          intro c' l'
          simp [processActivity, hk, hm]
        rw [hstep c l, hstep 0 0, ih _ c (l + 1), ih _ 0 (0 + 1)]
        simp [List.countP_cons, actOk, actErr, hk, hm, exceptOk]
        omega
    · have hstep : ∀ c' l' : ℕ, processActivity now ⟨t, c', l'⟩ a =
          ⟨t, c', l'⟩ := by
        intro c' l'
        simp [processActivity, hk]
      rw [hstep c l, hstep 0 0, ih _ c l, ih _ 0 0]
      simp [List.countP_cons, actOk, actErr, hk]

/-- A sleep record that maps successfully. -/
def slpOk (s : RawSleep) : Bool := exceptOk (mapSleep s)

/-- A sleep record whose mapping fails. -/
def slpErr (s : RawSleep) : Bool := !(exceptOk (mapSleep s))

lemma foldl_processSleep_spec :
    ∀ (recs : List RawSleep) (t : List SleepRow) (c l : ℕ),
      recs.foldl processSleep ⟨t, c, l⟩ =
        ⟨(recs.foldl processSleep ⟨t, 0, 0⟩).table,
          c + recs.countP slpOk, l + recs.countP slpErr⟩ := by
  intro recs
  induction recs with
  | nil => intro t c l; simp
  | cons s ss ih =>
    intro t c l
    rw [List.foldl_cons, List.foldl_cons]
    cases hm : mapSleep s with
    | ok row =>
      have hstep : ∀ c' l' : ℕ, processSleep ⟨t, c', l'⟩ s =
          ⟨upsertSleep t row, c' + 1, l'⟩ := by
        intro c' l'
        simp [processSleep, hm]
      rw [hstep c l, hstep 0 0, ih _ (c + 1) l, ih _ (0 + 1) 0]
      simp [List.countP_cons, slpOk, slpErr, hm, exceptOk]
      omega
    | error e =>
      have hstep : ∀ c' l' : ℕ, processSleep ⟨t, c', l'⟩ s =
          ⟨t, c', l' + 1⟩ := by
        intro c' l'
        simp [processSleep, hm]
      rw [hstep c l, hstep 0 0, ih _ c (l + 1), ih _ 0 (0 + 1)]
      simp [List.countP_cons, slpOk, slpErr, hm, exceptOk]
      omega

/-- C6: in both the activities and the sleep pass, a record whose per-record
mapping fails is skipped with one extra diagnostic, the records after it are
still processed (same resulting table and count as the batch without it),
and the count of the pass equals the number of successfully processed
records. -/
theorem bad_record_skipped_pass_continues :
    (∀ (now : ℕ) (bad : RawActivity) (e : String),
       mapActivity bad = Except.error e →
       getTypeKey bad = some "running" →
       ∀ (xs ys : List RawActivity) (t : List ActivityRow),
         ((xs ++ bad :: ys).foldl (processActivity now) ⟨t, 0, 0⟩).table =
             ((xs ++ ys).foldl (processActivity now) ⟨t, 0, 0⟩).table ∧
           ((xs ++ bad :: ys).foldl (processActivity now) ⟨t, 0, 0⟩).count =
             ((xs ++ ys).foldl (processActivity now) ⟨t, 0, 0⟩).count ∧
           ((xs ++ bad :: ys).foldl (processActivity now) ⟨t, 0, 0⟩).logs =
             ((xs ++ ys).foldl (processActivity now) ⟨t, 0, 0⟩).logs + 1 ∧
           ((xs ++ bad :: ys).foldl (processActivity now) ⟨t, 0, 0⟩).count =
             (xs ++ bad :: ys).countP actOk)
    ∧ (∀ (bad : RawSleep) (e : String),
       mapSleep bad = Except.error e →
       ∀ (xs ys : List RawSleep) (t : List SleepRow),
         ((xs ++ bad :: ys).foldl processSleep ⟨t, 0, 0⟩).table =
             ((xs ++ ys).foldl processSleep ⟨t, 0, 0⟩).table ∧
           ((xs ++ bad :: ys).foldl processSleep ⟨t, 0, 0⟩).count =
             ((xs ++ ys).foldl processSleep ⟨t, 0, 0⟩).count ∧
           ((xs ++ bad :: ys).foldl processSleep ⟨t, 0, 0⟩).logs =
             ((xs ++ ys).foldl processSleep ⟨t, 0, 0⟩).logs + 1 ∧
           ((xs ++ bad :: ys).foldl processSleep ⟨t, 0, 0⟩).count =
             (xs ++ bad :: ys).countP slpOk) := by
  constructor
  · intro now bad e hm hrun xs ys t
    have key : ∀ (zs : List RawActivity) (S : PassState ActivityRow),
        zs.foldl (processActivity now) S =
          ⟨(zs.foldl (processActivity now) ⟨S.table, 0, 0⟩).table,
            S.count + zs.countP actOk, S.logs + zs.countP actErr⟩ :=
      fun zs S => foldl_processActivity_spec now zs S.table S.count S.logs
    have hb : (getTypeKey bad == some "running") = true := by simp [hrun]
    have hstep : ∀ S : PassState ActivityRow,
        processActivity now S bad = ⟨S.table, S.count, S.logs + 1⟩ := by
      intro S
      simp [processActivity, hb, hm]
    have hA : (xs ++ bad :: ys).foldl (processActivity now) ⟨t, 0, 0⟩ =
        ys.foldl (processActivity now)
          ⟨(xs.foldl (processActivity now) ⟨t, 0, 0⟩).table,
            (xs.foldl (processActivity now) ⟨t, 0, 0⟩).count,
            (xs.foldl (processActivity now) ⟨t, 0, 0⟩).logs + 1⟩ := by
      rw [List.foldl_append, List.foldl_cons,
        hstep (xs.foldl (processActivity now) ⟨t, 0, 0⟩)]
    have hB : (xs ++ ys).foldl (processActivity now) ⟨t, 0, 0⟩ =
        ys.foldl (processActivity now)
          (xs.foldl (processActivity now) ⟨t, 0, 0⟩) := by
      rw [List.foldl_append]
    have eA : (xs ++ bad :: ys).foldl (processActivity now) ⟨t, 0, 0⟩ =
        ⟨(ys.foldl (processActivity now)
            ⟨(xs.foldl (processActivity now) ⟨t, 0, 0⟩).table, 0, 0⟩).table,
          (xs.foldl (processActivity now) ⟨t, 0, 0⟩).count + ys.countP actOk,
          (xs.foldl (processActivity now) ⟨t, 0, 0⟩).logs + 1 +
            ys.countP actErr⟩ := by
      rw [hA]
      exact key ys ⟨(xs.foldl (processActivity now) ⟨t, 0, 0⟩).table,
        (xs.foldl (processActivity now) ⟨t, 0, 0⟩).count,
        (xs.foldl (processActivity now) ⟨t, 0, 0⟩).logs + 1⟩
    have eB : (xs ++ ys).foldl (processActivity now) ⟨t, 0, 0⟩ =
        ⟨(ys.foldl (processActivity now)
            ⟨(xs.foldl (processActivity now) ⟨t, 0, 0⟩).table, 0, 0⟩).table,
          (xs.foldl (processActivity now) ⟨t, 0, 0⟩).count + ys.countP actOk,
          (xs.foldl (processActivity now) ⟨t, 0, 0⟩).logs +
            ys.countP actErr⟩ := by
      rw [hB]
      exact key ys (xs.foldl (processActivity now) ⟨t, 0, 0⟩)
    refine ⟨?_, ?_, ?_, ?_⟩
    · rw [eA, eB]
    · rw [eA, eB]
    · rw [eA, eB]
      dsimp only
      omega
    · have h4 := foldl_processActivity_spec now (xs ++ bad :: ys) t 0 0
      rw [h4]
      dsimp only
      omega
  · intro bad e hm xs ys t
    have key : ∀ (zs : List RawSleep) (S : PassState SleepRow),
        zs.foldl processSleep S =
          ⟨(zs.foldl processSleep ⟨S.table, 0, 0⟩).table,
            S.count + zs.countP slpOk, S.logs + zs.countP slpErr⟩ :=
      fun zs S => foldl_processSleep_spec zs S.table S.count S.logs
    have hstep : ∀ S : PassState SleepRow,
        processSleep S bad = ⟨S.table, S.count, S.logs + 1⟩ := by
      intro S
      simp [processSleep, hm]
    have hA : (xs ++ bad :: ys).foldl processSleep ⟨t, 0, 0⟩ =
        ys.foldl processSleep
          ⟨(xs.foldl processSleep ⟨t, 0, 0⟩).table,
            (xs.foldl processSleep ⟨t, 0, 0⟩).count,
            (xs.foldl processSleep ⟨t, 0, 0⟩).logs + 1⟩ := by
      rw [List.foldl_append, List.foldl_cons,
        hstep (xs.foldl processSleep ⟨t, 0, 0⟩)]
    have hB : (xs ++ ys).foldl processSleep ⟨t, 0, 0⟩ =
        ys.foldl processSleep (xs.foldl processSleep ⟨t, 0, 0⟩) := by
      rw [List.foldl_append]
    have eA : (xs ++ bad :: ys).foldl processSleep ⟨t, 0, 0⟩ =
        ⟨(ys.foldl processSleep
            ⟨(xs.foldl processSleep ⟨t, 0, 0⟩).table, 0, 0⟩).table,
          (xs.foldl processSleep ⟨t, 0, 0⟩).count + ys.countP slpOk,
          (xs.foldl processSleep ⟨t, 0, 0⟩).logs + 1 + ys.countP slpErr⟩ := by
      rw [hA]
      exact key ys ⟨(xs.foldl processSleep ⟨t, 0, 0⟩).table,
        (xs.foldl processSleep ⟨t, 0, 0⟩).count,
        (xs.foldl processSleep ⟨t, 0, 0⟩).logs + 1⟩
    have eB : (xs ++ ys).foldl processSleep ⟨t, 0, 0⟩ =
        ⟨(ys.foldl processSleep
            ⟨(xs.foldl processSleep ⟨t, 0, 0⟩).table, 0, 0⟩).table,
          (xs.foldl processSleep ⟨t, 0, 0⟩).count + ys.countP slpOk,
          (xs.foldl processSleep ⟨t, 0, 0⟩).logs + ys.countP slpErr⟩ := by
      rw [hB]
      exact key ys (xs.foldl processSleep ⟨t, 0, 0⟩)
    refine ⟨?_, ?_, ?_, ?_⟩
    · rw [eA, eB]
    · rw [eA, eB]
    · rw [eA, eB]
      dsimp only
      omega
    · have h4 := foldl_processSleep_spec (xs ++ bad :: ys) t 0 0
      rw [h4]
      dsimp only
      omega

/-- A complete, well-formed raw running activity. -/
def cRunning : RawActivity :=
  { activityId := some 101, activityName := some "Morning Run",
    activityType := some { typeKey := some "running" },
    distance := RawNum.num 10000, duration := RawNum.num 3000,
    startTimeLocal := some "2024-05-02T07:00:00",
    startTimeGMT := some "2024-05-02T05:00:00",
    calories := RawNum.num 700, elevationGain := RawNum.num 50,
    averageHR := RawNum.num 155, maxHR := RawNum.num 175 }

/-- A running record with the required `activityId` key absent: its mapping
raises a `KeyError`. -/
def cBadRun : RawActivity :=
  { activityId := none, activityName := some "Broken Run",
    activityType := some { typeKey := some "running" },
    distance := RawNum.num 5000, duration := RawNum.num 1500,
    startTimeLocal := some "2024-05-03T07:00:00",
    startTimeGMT := some "2024-05-03T05:00:00",
    calories := RawNum.num 350, elevationGain := RawNum.num 20,
    averageHR := RawNum.num 150, maxHR := RawNum.num 170 }

/-- Witness for C6: a batch with a broken running record in front of a good
one behaves like the batch without the broken record, plus one diagnostic. -/
theorem bad_record_skipped_pass_continues_witness :
    (([] ++ cBadRun :: [cRunning]).foldl (processActivity 5) ⟨[], 0, 0⟩).table =
        (([] ++ [cRunning]).foldl (processActivity 5) ⟨[], 0, 0⟩).table ∧
      (([] ++ cBadRun :: [cRunning]).foldl (processActivity 5)
            ⟨[], 0, 0⟩).count =
        (([] ++ [cRunning]).foldl (processActivity 5) ⟨[], 0, 0⟩).count ∧
      (([] ++ cBadRun :: [cRunning]).foldl (processActivity 5)
            ⟨[], 0, 0⟩).logs =
        (([] ++ [cRunning]).foldl (processActivity 5) ⟨[], 0, 0⟩).logs + 1 ∧
      (([] ++ cBadRun :: [cRunning]).foldl (processActivity 5)
            ⟨[], 0, 0⟩).count =
        ([] ++ cBadRun :: [cRunning]).countP actOk :=
  bad_record_skipped_pass_continues.1 5 cBadRun "KeyError: activityId" rfl rfl
    [] [cRunning] []

/-! ### The activities upsert -/

lemma applyConflictUpdate_id (r : MappedActivity) (now : ℕ)
    (row : ActivityRow) : (applyConflictUpdate r now row).id = row.id := by
  unfold applyConflictUpdate
  split <;> rfl

lemma countP_upsertActivity (t : List ActivityRow) (r : MappedActivity)
    (now : ℕ) (h : t.countP (fun row => row.id == r.id) ≤ 1) :
    (upsertActivity t r now).countP (fun row => row.id == r.id) = 1 := by
  unfold upsertActivity
  by_cases hA : t.any (fun row => row.id == r.id) = true
  · rw [if_pos hA, List.countP_map]
    have he : ((fun row : ActivityRow => row.id == r.id) ∘
        applyConflictUpdate r now) = fun row => row.id == r.id := by
      funext row
      simp [Function.comp, applyConflictUpdate_id]
    rw [he]
    have hpos : 0 < t.countP (fun row => row.id == r.id) := by
      rcases List.any_eq_true.mp hA with ⟨row, hmem, hrow⟩
      exact List.countP_pos_iff.mpr ⟨row, hmem, hrow⟩
    omega
  · rw [if_neg hA, List.countP_append]
    have h0 : t.countP (fun row => row.id == r.id) = 0 := by
      rw [List.countP_eq_zero]
      intro a ha hcontra
      exact hA (List.any_eq_true.mpr ⟨a, ha, hcontra⟩)
    rw [h0]
    simp [insertRow, List.countP_cons]

lemma upsertActivity_conflict_fields (t : List ActivityRow)
    (r : MappedActivity) (now : ℕ)
    (hA : t.any (fun row => row.id == r.id) = true) :
    ∀ row ∈ upsertActivity t r now, row.id = r.id →
      row.name = r.name ∧ row.distance = r.distance ∧
      row.duration = r.duration ∧ row.pace = r.pace ∧
      row.calories = r.calories ∧ row.elevation = r.elevation ∧
      row.avg_hr = r.avg_hr ∧ row.max_hr = r.max_hr ∧
      row.updated_at = some now := by
  intro row hmem hid
  unfold upsertActivity at hmem
  rw [if_pos hA] at hmem
  rcases List.mem_map.mp hmem with ⟨row0, hrow0, heq⟩
  unfold applyConflictUpdate at heq
  by_cases h0 : (row0.id == r.id) = true
  · rw [if_pos h0] at heq
    subst heq
    exact ⟨rfl, rfl, rfl, rfl, rfl, rfl, rfl, rfl, rfl⟩
  · rw [if_neg h0] at heq
    subst heq
    exact absurd (by simp [hid]) h0

/-- C1 (amended): re-running the upsert for an id that occurs at most once
leaves exactly one row for that id; `name`, `distance`, `duration`, `pace`,
`calories`, `elevation`, `avg_hr`, `max_hr` carry the latest values and
`updated_at` carries the last sync time — but `source`, `activity_type`
and `date` are not part of the conflict update. -/
theorem activities_upsert_rerun_single_row :
    ∀ (t : List ActivityRow) (r1 r2 : MappedActivity) (n1 n2 : ℕ),
      r1.id = r2.id →
      t.countP (fun row => row.id == r2.id) ≤ 1 →
      ((upsertActivity (upsertActivity t r1 n1) r2 n2).countP
          (fun row => row.id == r2.id) = 1 ∧
        ∀ row ∈ upsertActivity (upsertActivity t r1 n1) r2 n2,
          row.id = r2.id →
            row.name = r2.name ∧ row.distance = r2.distance ∧
            row.duration = r2.duration ∧ row.pace = r2.pace ∧
            row.calories = r2.calories ∧ row.elevation = r2.elevation ∧
            row.avg_hr = r2.avg_hr ∧ row.max_hr = r2.max_hr ∧
            row.updated_at = some n2) := by
  intro t r1 r2 n1 n2 hid hcount
  have hfun : (fun row : ActivityRow => row.id == r1.id) =
      (fun row => row.id == r2.id) := by
    funext row
    rw [hid]
  have h1 : (upsertActivity t r1 n1).countP
      (fun row => row.id == r2.id) = 1 := by
    rw [← hfun] at hcount ⊢
    exact countP_upsertActivity t r1 n1 hcount
  have h2 : (upsertActivity (upsertActivity t r1 n1) r2 n2).countP
      (fun row => row.id == r2.id) = 1 :=
    countP_upsertActivity _ r2 n2 (by omega)
  have hA : (upsertActivity t r1 n1).any
      (fun row => row.id == r2.id) = true := by
    have hpos : 0 < (upsertActivity t r1 n1).countP
        (fun row => row.id == r2.id) := by omega
    rcases List.countP_pos_iff.mp hpos with ⟨row, hmem, hrow⟩
    exact List.any_eq_true.mpr ⟨row, hmem, hrow⟩
  exact ⟨h2, upsertActivity_conflict_fields _ r2 n2 hA⟩

/-- A first fetch of activity 1. -/
def cMapped1 : MappedActivity :=
  { id := 1, name := "Morning Run", date := "2024-01-01", distance := 5,
    duration := 1500, pace := "5:00/km", calories := 300, elevation := 10,
    avg_hr := 150, max_hr := 180 }

/-- A later fetch of the same activity with every non-key field changed,
including the date. -/
def cMapped2 : MappedActivity :=
  { id := 1, name := "Morning Run (renamed)", date := "2024-01-02",
    distance := 6, duration := 1800, pace := "5:00/km", calories := 360,
    elevation := 12, avg_hr := 152, max_hr := 181 }

/-- Counterexample to C1 as stated: after re-running the upsert for id 1
with a changed date, the stored date is still the first one, so the non-key
column `date` is not overwritten with the latest fetched value. -/
theorem activities_upsert_date_not_overwritten :
    (upsertActivity (upsertActivity [] cMapped1 1) cMapped2 2).map
        (fun row => row.date) = ["2024-01-01"] ∧
      cMapped2.date = "2024-01-02" ∧
      ("2024-01-01" : String) ≠ "2024-01-02" :=
  ⟨rfl, rfl, by decide⟩

/-- Witness for C1 (amended), at the concrete double upsert of id 1. -/
theorem activities_upsert_rerun_single_row_witness :
    (upsertActivity (upsertActivity [] cMapped1 1) cMapped2 2).countP
        (fun row => row.id == cMapped2.id) = 1 ∧
      ∀ row ∈ upsertActivity (upsertActivity [] cMapped1 1) cMapped2 2,
        row.id = cMapped2.id →
          row.name = cMapped2.name ∧ row.distance = cMapped2.distance ∧
          row.duration = cMapped2.duration ∧ row.pace = cMapped2.pace ∧
          row.calories = cMapped2.calories ∧
          row.elevation = cMapped2.elevation ∧
          row.avg_hr = cMapped2.avg_hr ∧ row.max_hr = cMapped2.max_hr ∧
          row.updated_at = some 2 :=
  activities_upsert_rerun_single_row [] cMapped1 cMapped2 1 2 rfl
    (by decide)

/-- C10: a freshly inserted activities row has the constant source 'garmin'
and the constant activity_type 'run', and the conflict update modifies no
row's `source`, `activity_type` or `date`. -/
theorem insert_constants_and_conflict_preserved :
    (∀ (t : List ActivityRow) (r : MappedActivity) (now : ℕ),
       t.any (fun row => row.id == r.id) = false →
       ∀ row ∈ upsertActivity t r now, row.id = r.id →
         row.source = "garmin" ∧ row.activity_type = "run")
    ∧ (∀ (t : List ActivityRow) (r : MappedActivity) (now : ℕ),
       t.any (fun row => row.id == r.id) = true →
       (upsertActivity t r now).map
           (fun row => (row.source, row.activity_type, row.date)) =
         t.map (fun row => (row.source, row.activity_type, row.date))) := by
  constructor
  · intro t r now hA row hmem hid
    unfold upsertActivity at hmem
    rw [if_neg (by simp [hA])] at hmem
    rcases List.mem_append.mp hmem with hmem | hmem
    · exfalso
      have hT : t.any (fun row => row.id == r.id) = true :=
        List.any_eq_true.mpr ⟨row, hmem, by simp [hid]⟩
      rw [hA] at hT
      exact Bool.false_ne_true hT
    · rw [List.mem_singleton] at hmem
      subst hmem
      exact ⟨rfl, rfl⟩
  · intro t r now hA
    unfold upsertActivity
    rw [if_pos hA, List.map_map]
    apply List.map_congr_left
    intro row hmem
    show (fun row => (row.source, row.activity_type, row.date))
        (applyConflictUpdate r now row) = (row.source, row.activity_type,
          row.date)
    unfold applyConflictUpdate
    split <;> rfl

/-- Witness for C10 at a fresh insert into an empty table. -/
theorem insert_constants_and_conflict_preserved_witness :
    (insertRow cMapped1).source = "garmin" ∧
      (insertRow cMapped1).activity_type = "run" :=
  insert_constants_and_conflict_preserved.1 [] cMapped1 3 rfl
    (insertRow cMapped1) (List.mem_singleton.mpr rfl) rfl

/-- C3 (amended): every numeric field maps to 0 when absent and the mapping
succeeds; `calories`, `elevation`, `avg_hr`, `max_hr` also map to 0 when
null; but a null `distance` or `duration` makes the record's mapping fail
(the record is skipped), rather than defaulting to 0. -/
theorem numeric_defaults_amended :
    (∀ (act : RawActivity) (i : ℤ), act.activityId = some i →
       act.distance = RawNum.absent → act.duration = RawNum.absent →
       act.calories = RawNum.absent → act.elevationGain = RawNum.absent →
       act.averageHR = RawNum.absent → act.maxHR = RawNum.absent →
       ∃ row, mapActivity act = Except.ok row ∧ row.distance = 0 ∧
         row.duration = 0 ∧ row.calories = 0 ∧ row.elevation = 0 ∧
         row.avg_hr = 0 ∧ row.max_hr = 0)
    ∧ (∀ (act : RawActivity) (row : MappedActivity),
       mapActivity act = Except.ok row →
         ((act.calories = RawNum.absent ∨ act.calories = RawNum.null) →
           row.calories = 0) ∧
         ((act.elevationGain = RawNum.absent ∨
             act.elevationGain = RawNum.null) → row.elevation = 0) ∧
         ((act.averageHR = RawNum.absent ∨ act.averageHR = RawNum.null) →
           row.avg_hr = 0) ∧
         ((act.maxHR = RawNum.absent ∨ act.maxHR = RawNum.null) →
           row.max_hr = 0))
    ∧ (∀ act : RawActivity, act.distance = RawNum.null →
       ∃ e, mapActivity act = Except.error e)
    ∧ (∀ act : RawActivity, act.duration = RawNum.null →
       ∃ e, mapActivity act = Except.error e) := by
  refine ⟨?_, ?_, ?_, ?_⟩
  · intro act i hid hdist hdur hcal helev havg hmax
    have e1 : pyRound2 ((0:ℚ) / 1000) = 0 := by
      norm_num [pyRound2, roundHalfEven]
    have e2 : pyInt 0 = 0 := by norm_num [pyInt]
    unfold mapActivity
    rw [hid, hdist, hdur, hcal, helev, havg, hmax]
    simp only [getNumDefault0, orZero]
    exact ⟨_, rfl, e1, e2, e2, e2, e2, e2⟩
  · intro act row h
    unfold mapActivity at h
    cases hid : act.activityId with
    | none => rw [hid] at h; exact absurd h (by simp)
    | some i =>
      rw [hid] at h
      cases hdist : getNumDefault0 act.distance with
      | error e => rw [hdist] at h; exact absurd h (by simp)
      | ok rawDist =>
        rw [hdist] at h
        cases hdur : getNumDefault0 act.duration with
        | error e => rw [hdur] at h; exact absurd h (by simp)
        | ok rawDur =>
          rw [hdur] at h
          injection h with h'
          subst h'
          refine ⟨?_, ?_, ?_, ?_⟩ <;> intro hcase <;>
            rcases hcase with hc | hc <;>
            simp [hc, orZero, pyInt]
  · intro act hdist
    cases hid : act.activityId with
    | none =>
      exact ⟨"KeyError: activityId", by unfold mapActivity; rw [hid]⟩
    | some i =>
      refine ⟨"TypeError: unsupported operand type: NoneType", ?_⟩
      unfold mapActivity
      rw [hid, hdist]
      rfl
  · intro act hdur
    cases hid : act.activityId with
    | none =>
      exact ⟨"KeyError: activityId", by unfold mapActivity; rw [hid]⟩
    | some i =>
      cases hdist : getNumDefault0 act.distance with
      | error e =>
        exact ⟨e, by unfold mapActivity; rw [hid, hdist]⟩
      | ok rawDist =>
        refine ⟨"TypeError: unsupported operand type: NoneType", ?_⟩
        unfold mapActivity
        rw [hid, hdist, hdur]
        rfl

/-- A running record whose `distance` field is present but null. -/
def cNullDist : RawActivity :=
  { activityId := some 7, activityName := some "Null distance run",
    activityType := some { typeKey := some "running" },
    distance := RawNum.null, duration := RawNum.absent,
    startTimeLocal := some "2024-05-04T07:00:00", startTimeGMT := none,
    calories := RawNum.absent, elevationGain := RawNum.absent,
    averageHR := RawNum.absent, maxHR := RawNum.absent }

/-- Counterexample to C3 as stated: a record with a null `distance` does not
map to a row with distance 0 — its mapping raises, and the record is
skipped. -/
theorem null_distance_mapping_fails :
    mapActivity cNullDist =
        Except.error "TypeError: unsupported operand type: NoneType" ∧
      cNullDist.distance = RawNum.null :=
  ⟨rfl, rfl⟩

/-- A running record with every optional numeric field absent. -/
def cAllAbsent : RawActivity :=
  { activityId := some 8, activityName := none,
    activityType := some { typeKey := some "running" },
    distance := RawNum.absent, duration := RawNum.absent,
    startTimeLocal := some "2024-05-05 07:00:00", startTimeGMT := none,
    calories := RawNum.absent, elevationGain := RawNum.absent,
    averageHR := RawNum.absent, maxHR := RawNum.absent }

/-- Witness for C3 (amended): the all-absent record maps successfully with
every numeric field 0. -/
theorem numeric_defaults_amended_witness :
    ∃ row, mapActivity cAllAbsent = Except.ok row ∧ row.distance = 0 ∧
      row.duration = 0 ∧ row.calories = 0 ∧ row.elevation = 0 ∧
      row.avg_hr = 0 ∧ row.max_hr = 0 :=
  numeric_defaults_amended.1 cAllAbsent 8 rfl rfl rfl rfl rfl rfl rfl

/-- C5 (amended): a RemoteAPIError surfacing in the sleep or stress pass
(the all-days list fetch fails) makes that whole pass a no-op — nothing is
persisted and the reported count is 0 — without raising to the caller; a
RemoteAPIError in the activities pass likewise aborts that pass with count
0 and no table change. -/
theorem remote_error_pass_behavior :
    (∀ (days : List (Except String RawSleep)) (table : List SleepRow)
       (e : String), fetchAll days = Except.error e →
       sync_sleep days table = (table, 0))
    ∧ (∀ (days : List (Except String RawStress)) (table : List StressRow)
       (e : String), fetchAll days = Except.error e →
       sync_stress days table = (table, 0))
    ∧ (∀ (now : ℕ) (e : String) (table : List ActivityRow),
       sync_activities now (Except.error e) table = (table, 0)) := by
  refine ⟨?_, ?_, ?_⟩
  · intro days table e h
    unfold sync_sleep
    rw [h]
  · intro days table e h
    unfold sync_stress
    rw [h]
  · intro now e table
    rfl

/-- A valid sleep record for 2024-04-01. -/
def cSleep1 : RawSleep :=
  { calendarDate := some "2024-04-01", sleepTimeSeconds := some 28800,
    deepSleepSeconds := some 7200, lightSleepSeconds := some 14400,
    remSleepSeconds := some 5400, awakeSleepSeconds := some 1800,
    sleepScore := some 80 }

/-- A valid sleep record for 2024-04-03. -/
def cSleep2 : RawSleep :=
  { cSleep1 with calendarDate := some "2024-04-03" }

/-- Three requested days: the middle one fails with a rate-limit error. -/
def cDays : List (Except String RawSleep) :=
  [Except.ok cSleep1, Except.error "GarthHTTPError: 429 Too Many Requests",
    Except.ok cSleep2]

/-- Counterexample to C5 as stated: with two good days around one failing
day, the sleep pass persists nothing and reports 0 — it does not skip only
the failing day and process (and persist) the remaining two. -/
theorem sleep_pass_aborts_on_remote_error :
    sync_sleep cDays [] = ([], 0) ∧ (sync_sleep cDays []).2 ≠ 2 :=
  ⟨rfl, by decide⟩

/-- Witness for C5 (amended) at the concrete three-day batch. -/
theorem remote_error_pass_behavior_witness :
    sync_sleep cDays [] = ([], 0) :=
  remote_error_pass_behavior.1 cDays []
    "GarthHTTPError: 429 Too Many Requests" rfl

/-- C8 (amended): the persisted sleep score is the constant 0 for every
successfully mapped record, whether or not the record carries a score. -/
theorem sleep_score_always_zero :
    ∀ (s : RawSleep) (row : SleepRow), mapSleep s = Except.ok row →
      row.score = 0 := by
  intro s row h
  unfold mapSleep at h
  cases hd : s.calendarDate with
  | none => rw [hd] at h; exact absurd h (by simp)
  | some d =>
    rw [hd] at h
    injection h with h'
    subst h'
    rfl

/-- A sleep record that carries the sleep score 85. -/
def cSleepScored : RawSleep :=
  { calendarDate := some "2024-04-05", sleepTimeSeconds := some 30000,
    deepSleepSeconds := some 8000, lightSleepSeconds := some 15000,
    remSleepSeconds := some 5000, awakeSleepSeconds := some 2000,
    sleepScore := some 85 }

/-- Counterexample to C8 as stated: a record carrying sleep score 85 is
persisted with score 0 — the record's score is never carried over. -/
theorem sleep_score_not_carried :
    mapSleep cSleepScored = Except.ok
        { date := "2024-04-05", total_sleep := 30000, deep_sleep := 8000,
          light_sleep := 15000, rem_sleep := 5000, awake := 2000,
          score := 0 } ∧
      cSleepScored.sleepScore = some 85 ∧ (0 : ℤ) ≠ 85 :=
  ⟨rfl, rfl, by decide⟩

/-- Witness for C8 (amended) at the scored record. -/
theorem sleep_score_always_zero_witness :
    ({ date := "2024-04-05", total_sleep := 30000, deep_sleep := 8000,
       light_sleep := 15000, rem_sleep := 5000, awake := 2000,
       score := 0 } : SleepRow).score = 0 :=
  sleep_score_always_zero cSleepScored _ rfl

/-- Written from the spec's words: the timestamp whose date is persisted —
the local timestamp field when present, otherwise the GMT field, otherwise
empty. -/
def preferLocal (act : RawActivity) : String :=
  match act.startTimeLocal with
  | some s => s
  | none =>
    match act.startTimeGMT with
    | some s => s
    | none => ""

/-- Written from the spec's words: the date portion of a timestamp — the
part before 'T' when the timestamp contains 'T', else the part before a
space. -/
def datePart (s : String) : String :=
  if s.contains 'T' then (s.splitOn "T").headD ""
  else (s.splitOn " ").headD ""

/-- C9: the persisted activity date is the date portion of the local
timestamp when present (otherwise of the GMT timestamp), split on 'T' when
the timestamp contains 'T' and on a space otherwise. -/
theorem activity_date_extraction :
    ∀ (act : RawActivity) (row : MappedActivity),
      mapActivity act = Except.ok row →
      row.date = datePart (preferLocal act) := by
  intro act row h
  unfold mapActivity at h
  cases hid : act.activityId with
  | none => rw [hid] at h; exact absurd h (by simp)
  | some i =>
    rw [hid] at h
    cases hdist : getNumDefault0 act.distance with
    | error e => rw [hdist] at h; exact absurd h (by simp)
    | ok rawDist =>
      rw [hdist] at h
      cases hdur : getNumDefault0 act.duration with
      | error e => rw [hdur] at h; exact absurd h (by simp)
      | ok rawDur =>
        rw [hdur] at h
        injection h with h'
        subst h'
        cases hl : act.startTimeLocal with
        | some s => simp [hl, datePart, preferLocal]
        | none =>
          cases hg : act.startTimeGMT with
          | some s => simp [hl, hg, datePart, preferLocal]
          | none => simp [hl, hg, datePart, preferLocal]

/-- Witness for C9 at the concrete running record. -/
theorem activity_date_extraction_witness :
    ∃ row, mapActivity cRunning = Except.ok row ∧
      row.date = datePart (preferLocal cRunning) :=
  ⟨_, rfl, activity_date_extraction cRunning _ rfl⟩

/-- C7: the job exits 1 without entering the job body when the token pair or
the database URL is missing; exits 1 whenever the job body raises
(authentication failure or any other top-level exception); and exits 0
exactly when the configuration is present and the job body runs to the end. -/
theorem exit_code_contract :
    (∀ (env : Env) (job : Except String (ℕ × ℕ × ℕ)),
       env.oauth1 = none ∨ env.oauth2 = none ∨
         (env.databaseUrl = none ∧ env.postgresUrl = none) →
       main env job = (1, false))
    ∧ (∀ (env : Env) (e : String), (main env (Except.error e)).1 = 1)
    ∧ (∀ (env : Env) (job : Except String (ℕ × ℕ × ℕ)),
       (main env job).1 = 0 ↔
         truthyOpt env.oauth1 = true ∧ truthyOpt env.oauth2 = true ∧
           truthyOpt (DATABASE_URL env) = true ∧
           ∃ c, job = Except.ok c) := by
  refine ⟨?_, ?_, ?_⟩
  · intro env job h
    rcases h with h | h | ⟨h1, h2⟩
    · simp [main, truthyOpt, h]
    · simp [main, truthyOpt, h]
    · simp [main, DATABASE_URL, truthyOpt, h1, h2]
  · intro env e
    unfold main
    split
    · rfl
    · split
      · rfl
      · rfl
  · intro env job
    unfold main
    by_cases h1 : truthyOpt env.oauth1 = true
    · by_cases h2 : truthyOpt env.oauth2 = true
      · by_cases h3 : truthyOpt (DATABASE_URL env) = true
        · cases job with
          | ok c => simp [h1, h2, h3]
          | error e => simp [h1, h2, h3]
        · rw [Bool.not_eq_true] at h3
          simp [h1, h2, h3]
      · rw [Bool.not_eq_true] at h2
        simp [h1, h2]
    · rw [Bool.not_eq_true] at h1
      simp [h1]

/-- An environment with the first OAuth token variable missing. -/
def cEnvMissing : Env :=
  { databaseUrl := some "postgres://db", postgresUrl := none,
    oauth1 := none, oauth2 := some "token2" }

/-- Witness for C7: a missing token gives exit code 1 with the job body
never entered. -/
theorem exit_code_contract_witness :
    main cEnvMissing (Except.ok (1, 2, 3)) = (1, false) :=
  exit_code_contract.1 cEnvMissing (Except.ok (1, 2, 3)) (Or.inl rfl)

end GarminSync
